import Mathlib

/-!
Verification of the Noesis research frontend: the Zustand research store
(`updateFromStream` and the other store actions), the WebSocket message
handler of `streamResearch`, and the retry constants of the resilient call
wrapper.  Each definition is a shallow embedding of the corresponding
TypeScript source.
-/

namespace Noesis

/-- JavaScript truthiness for the idiom `x || default` on an optional string:
`undefined`/`null` and the empty string are falsy. -/
def jsOrString : Option String → String → String
  | some s, d => if s = "" then d else s
  | none, d => d

/-- JavaScript truthiness for `x || default` on an optional integer:
`undefined`/`null` and `0` are falsy. -/
def jsOrInt : Option Int → Int → Int
  | some n, d => if n = 0 then d else n
  | none, d => d

/-- JavaScript truthiness for `x || default` on an optional rational
(modelling a JS number): `undefined`/`null` and `0` are falsy. -/
def jsOrRat : Option Rat → Rat → Rat
  | some x, d => if x = 0 then d else x
  | none, d => d

/-- JavaScript truthiness for `x || default` on an optional array: arrays are
truthy even when empty, so only `undefined`/`null` falls back. -/
def jsOrList {α : Type} : Option (List α) → List α → List α
  | some xs, _ => xs
  | none, d => d

/-- A finding in `ResearchState.findings` is an opaque JS value (`any[]` in the
source); we identify it by its content key, modelled as a string. -/
abbrev Finding := String

/-- The validation record stored by the `"validation"` stream event
(`is_valid`, `confidence`, `concerns`), from `researchStore.ts`. -/
structure Validation where
  is_valid : Bool
  confidence : Rat
  concerns : List String
deriving DecidableEq, Repr

/-- The analytics snapshot of `ResearchState.analytics`, from
`researchStore.ts`.  JS numbers are modelled as rationals. -/
structure Analytics where
  totalQueries : Rat
  totalSearches : Rat
  cacheHits : Rat
  cacheHitRate : Rat
  totalTokens : Rat
  totalFindings : Rat
  iterationsCompleted : Rat
  durationSeconds : Rat
  queryEfficiency : Rat
  sourceDiversity : Rat
deriving DecidableEq, Repr

/-- The `data` payload of a stream update.  In JS this is one loose object
whose fields vary per `type`; absent fields are `none`. -/
structure UpdateData where
  type : String
  queries : Option (List String) := none
  reasoning : Option String := none
  findings : Option (List Finding) := none
  coverage : Option Rat := none
  gaps : Option (List String) := none
  is_valid : Bool := false
  confidence : Rat := 0
  concerns : Option (List String) := none
  content : Option String := none
deriving DecidableEq, Repr

/-- The `StreamUpdate` interface of `api-client.ts`:
`{type, status?, iteration?, timestamp, data?}`. -/
structure StreamUpdate where
  type : String := ""
  status : Option String := none
  iteration : Option Int := none
  timestamp : String := ""
  data : Option UpdateData := none
deriving DecidableEq, Repr

/-- The data fields of the `ResearchState` Zustand store
(`researchStore.ts`), without the action closures. -/
structure ResearchState where
  researchId : Option String
  topic : String
  clarifications : List (String × String)
  status : String
  iteration : Int
  maxIterations : Int
  queryReasoning : String
  analysisReasoning : String
  currentQueries : List String
  gaps : List String
  coverage : Rat
  validation : Option Validation
  analytics : Option Analytics
  findings : List Finding
  report : String
  isStreaming : Bool
  error : Option String
deriving DecidableEq, Repr

/-- `initialState` of `researchStore.ts`. -/
def initialState : ResearchState where
  researchId := none
  topic := ""
  clarifications := []
  status := "idle"
  iteration := 0
  maxIterations := 5
  queryReasoning := ""
  analysisReasoning := ""
  currentQueries := []
  gaps := []
  coverage := 0
  validation := none
  analytics := none
  findings := []
  report := ""
  isStreaming := false
  error := none

/-- Store action `setResearchId`. -/
def setResearchId (s : ResearchState) (id : String) : ResearchState :=
  { s with researchId := some id }

/-- Store action `setTopic`. -/
def setTopic (s : ResearchState) (topic : String) : ResearchState :=
  { s with topic := topic }

/-- Store action `setClarifications`. -/
def setClarifications (s : ResearchState) (c : List (String × String)) : ResearchState :=
  { s with clarifications := c }

/-- Store action `setStatus`:
`set({ status, isStreaming: status !== "completed" && status !== "failed" })`. -/
def setStatus (s : ResearchState) (status : String) : ResearchState :=
  { s with
    status := status,
    isStreaming := (status != "completed") && (status != "failed") }

/-- Store action `updateFromStream` of `researchStore.ts`.  `newState` starts
from `status`/`iteration` (with JS `||` fallbacks), the `switch` on
`update.data.type` adds the per-type fields, and the result is spread over the
old state. -/
def updateFromStream (s : ResearchState) (update : StreamUpdate) : ResearchState :=
  let base : ResearchState :=
    { s with
      status := jsOrString update.status s.status,
      iteration := jsOrInt update.iteration s.iteration }
  match update.data with
  | none => base
  | some d =>
      if d.type = "query_generation" then
        { base with
          currentQueries := jsOrList d.queries [],
          queryReasoning := jsOrString d.reasoning "" }
      else if d.type = "search" then
        { base with findings := s.findings ++ jsOrList d.findings [] }
      else if d.type = "analysis" then
        { base with
          coverage := jsOrRat d.coverage 0,
          gaps := jsOrList d.gaps [],
          analysisReasoning := jsOrString d.reasoning "" }
      else if d.type = "validation" then
        { base with
          validation := some ⟨d.is_valid, d.confidence, jsOrList d.concerns []⟩ }
      else if d.type = "report" then
        { base with
          report := jsOrString d.content "",
          status := "completed",
          isStreaming := false }
      else base

/-- Store action `setAnalytics`. -/
def setAnalytics (s : ResearchState) (a : Option Analytics) : ResearchState :=
  { s with analytics := a }

/-- Store action `setReport`. -/
def setReport (s : ResearchState) (r : String) : ResearchState :=
  { s with report := r }

/-- Store action `setError`: `set({ error, isStreaming: false })`. -/
def setError (s : ResearchState) (e : Option String) : ResearchState :=
  { s with error := e, isStreaming := false }

/-- Store action `reset`: `set(initialState)`; `initialState` lists every data
field, so the whole data state is restored. -/
def reset (_ : ResearchState) : ResearchState :=
  initialState

/-- One invocation of a store action, for talking about reachable states. -/
inductive Action where
  | actSetResearchId (id : String)
  | actSetTopic (t : String)
  | actSetClarifications (c : List (String × String))
  | actSetStatus (st : String)
  | actUpdateFromStream (u : StreamUpdate)
  | actSetAnalytics (a : Option Analytics)
  | actSetReport (r : String)
  | actSetError (e : Option String)
  | actReset

/-- Apply one store action. -/
def step (s : ResearchState) : Action → ResearchState
  | Action.actSetResearchId id => setResearchId s id
  | Action.actSetTopic t => setTopic s t
  | Action.actSetClarifications c => setClarifications s c
  | Action.actSetStatus st => setStatus s st
  | Action.actUpdateFromStream u => updateFromStream s u
  | Action.actSetAnalytics a => setAnalytics s a
  | Action.actSetReport r => setReport s r
  | Action.actSetError e => setError s e
  | Action.actReset => reset s

/-- Apply a sequence of store actions. -/
def run (s : ResearchState) (acts : List Action) : ResearchState :=
  acts.foldl step s

/-- A callback invocation made by the `ws.onmessage` handler of
`streamResearch` (`api-client.ts`): `onUpdate`, `onError` or `onComplete`. -/
inductive CallbackEvent where
  | cbUpdate (u : StreamUpdate)
  | cbError (msg : String)
  | cbComplete
deriving DecidableEq, Repr

/-- The `ws.onmessage` handler of `streamResearch`: on a parse failure it
calls `onError`; on success it calls `onUpdate` and, when
`update.type === "report" || update.status === "completed"`, also
`onComplete`.  The argument is the result of `JSON.parse`. -/
def handleMessage (parsed : Option StreamUpdate) : List CallbackEvent :=
  match parsed with
  | none => [CallbackEvent.cbError "Failed to parse update"]
  | some u =>
      CallbackEvent.cbUpdate u ::
        (if u.type = "report" ∨ u.status = some "completed" then
          [CallbackEvent.cbComplete]
        else [])

/-- `MAX_RETRY_ATTEMPTS` from the research constants file. -/
def MAX_RETRY_ATTEMPTS : Nat := 3

/-- `RETRY_DELAY_MS` from the research constants file. -/
def RETRY_DELAY_MS : Nat := 1000

/-- Outcome of one attempt of an external call, as classified by the
resilient call wrapper: success, a transient (retryable) failure, or a
permanent (non-retryable) failure. -/
inductive Outcome where
  | success (v : Nat)
  | transient
  | permanent
deriving DecidableEq, Repr

/-- Result surfaced by the resilient call wrapper. -/
inductive CallResult where
  | ok (v : Nat)
  | retriesExhausted
  | permanentError
deriving DecidableEq, Repr

/-- A finished wrapper run: the surfaced result, the number of attempts made,
and the total backoff time waited (milliseconds). -/
structure WrapperRun where
  result : CallResult
  attempts : Nat
  elapsed : Nat
deriving DecidableEq, Repr

/-- Modelled from the spec: the Resilient Call Wrapper (spec 4.2) is backend
code absent from the frontend sources; only its constants
`MAX_RETRY_ATTEMPTS` and `RETRY_DELAY_MS` appear in src.  `fuel` is the
number of attempts still allowed, `i` the 1-based index of the current
attempt, `elapsed` the backoff time waited so far.  A transient failure on a
non-final attempt waits `RETRY_DELAY_MS * 2 ^ (i - 1)` and retries; a
transient failure on the final attempt surfaces `retriesExhausted`; a
permanent failure surfaces immediately without retry. -/
def callWithRetryAux (f : Nat → Outcome) : Nat → Nat → Nat → WrapperRun
  | 0, i, elapsed => ⟨CallResult.retriesExhausted, i - 1, elapsed⟩
  | fuel + 1, i, elapsed =>
      match f i with
      | Outcome.success v => ⟨CallResult.ok v, i, elapsed⟩
      | Outcome.permanent => ⟨CallResult.permanentError, i, elapsed⟩
      | Outcome.transient =>
          if fuel = 0 then ⟨CallResult.retriesExhausted, i, elapsed⟩
          else callWithRetryAux f fuel (i + 1) (elapsed + RETRY_DELAY_MS * 2 ^ (i - 1))

/-- Modelled from the spec: run a call through the wrapper with at most
`MAX_RETRY_ATTEMPTS` attempts, starting at attempt 1 with no time elapsed.
`f i` is the outcome of attempt `i`. -/
def callWithRetry (f : Nat → Outcome) : WrapperRun :=
  callWithRetryAux f MAX_RETRY_ATTEMPTS 1 0

/-! Characterizations of `updateFromStream`, one per branch of the switch. -/

/-- With no `data` payload only `status` and `iteration` are recomputed. -/
theorem ufsNone (s : ResearchState) (u : StreamUpdate) (h : u.data = none) :
    updateFromStream s u =
      { s with
        status := jsOrString u.status s.status,
        iteration := jsOrInt u.iteration s.iteration } := by
  unfold updateFromStream
  rw [h]

/-- The `"query_generation"` branch. -/
theorem ufsQueryGen (s : ResearchState) (u : StreamUpdate) (d : UpdateData)
    (h : u.data = some d) (ht : d.type = "query_generation") :
    updateFromStream s u =
      { s with
        status := jsOrString u.status s.status,
        iteration := jsOrInt u.iteration s.iteration,
        currentQueries := jsOrList d.queries [],
        queryReasoning := jsOrString d.reasoning "" } := by
  unfold updateFromStream
  rw [h]
  simp only [ht, String.reduceEq, reduceIte]

/-- The `"search"` branch: findings are concatenated, nothing is filtered. -/
theorem ufsSearch (s : ResearchState) (u : StreamUpdate) (d : UpdateData)
    (h : u.data = some d) (ht : d.type = "search") :
    updateFromStream s u =
      { s with
        status := jsOrString u.status s.status,
        iteration := jsOrInt u.iteration s.iteration,
        findings := s.findings ++ jsOrList d.findings [] } := by
  unfold updateFromStream
  rw [h]
  simp only [ht, String.reduceEq, reduceIte]

/-- The `"analysis"` branch. -/
theorem ufsAnalysis (s : ResearchState) (u : StreamUpdate) (d : UpdateData)
    (h : u.data = some d) (ht : d.type = "analysis") :
    updateFromStream s u =
      { s with
        status := jsOrString u.status s.status,
        iteration := jsOrInt u.iteration s.iteration,
        coverage := jsOrRat d.coverage 0,
        gaps := jsOrList d.gaps [],
        analysisReasoning := jsOrString d.reasoning "" } := by
  unfold updateFromStream
  rw [h]
  simp only [ht, String.reduceEq, reduceIte]

/-- The `"validation"` branch: the record is rebuilt unconditionally. -/
theorem ufsValidation (s : ResearchState) (u : StreamUpdate) (d : UpdateData)
    (h : u.data = some d) (ht : d.type = "validation") :
    updateFromStream s u =
      { s with
        status := jsOrString u.status s.status,
        iteration := jsOrInt u.iteration s.iteration,
        validation := some ⟨d.is_valid, d.confidence, jsOrList d.concerns []⟩ } := by
  unfold updateFromStream
  rw [h]
  simp only [ht, String.reduceEq, reduceIte]

/-- The `"report"` branch: `newState.status` is overwritten with
`"completed"` and `isStreaming` is cleared. -/
theorem ufsReport (s : ResearchState) (u : StreamUpdate) (d : UpdateData)
    (h : u.data = some d) (ht : d.type = "report") :
    updateFromStream s u =
      { s with
        status := "completed",
        iteration := jsOrInt u.iteration s.iteration,
        report := jsOrString d.content "",
        isStreaming := false } := by
  unfold updateFromStream
  rw [h]
  simp only [ht, String.reduceEq, reduceIte]

/-- An unrecognized `data.type` falls through the switch: only `status` and
`iteration` are recomputed. -/
theorem ufsOther (s : ResearchState) (u : StreamUpdate) (d : UpdateData)
    (h : u.data = some d)
    (h1 : d.type ≠ "query_generation") (h2 : d.type ≠ "search")
    (h3 : d.type ≠ "analysis") (h4 : d.type ≠ "validation")
    (h5 : d.type ≠ "report") :
    updateFromStream s u =
      { s with
        status := jsOrString u.status s.status,
        iteration := jsOrInt u.iteration s.iteration } := by
  unfold updateFromStream
  rw [h]
  simp only [h1, h2, h3, h4, h5, reduceIte]

/-! Concrete stream updates used as test inputs. -/

/-- A `"search"` event delivering one finding with content key `"A"`. -/
def uSearchAData : UpdateData :=
  { type := "search", findings := some ["A"] }

/-- A stream update carrying `uSearchAData`. -/
def uSearchA : StreamUpdate :=
  { data := some uSearchAData }

/-- A `"report"` event with no `content` field. -/
def uReportEmpty : StreamUpdate :=
  { data := some { type := "report" } }

/-- The data of a `"report"` event with content `"done"`. -/
def uReportDoneData : UpdateData :=
  { type := "report", content := some "done" }

/-- A stream update carrying `uReportDoneData`. -/
def uReportDone : StreamUpdate :=
  { data := some uReportDoneData }

/-- A first `"validation"` event. -/
def uVal1 : StreamUpdate :=
  { data := some { type := "validation", is_valid := true, confidence := 1 } }

/-- A second, different `"validation"` event. -/
def uVal2 : StreamUpdate :=
  { data := some { type := "validation", is_valid := false, confidence := 0,
                   concerns := some ["low"] } }

/-- A bare update carrying `iteration = 6` and no data payload. -/
def uIter6 : StreamUpdate :=
  { iteration := some 6 }

/-- A bare update carrying `iteration = 2` and no data payload. -/
def uIter2 : StreamUpdate :=
  { iteration := some 2 }

/-- The data of a `"query_generation"` event. -/
def uQueryGenData : UpdateData :=
  { type := "query_generation", queries := some ["q1"], reasoning := some "r" }

/-- A stream update carrying `uQueryGenData`. -/
def uQueryGen : StreamUpdate :=
  { data := some uQueryGenData }

/-- A parsed WebSocket message whose top-level `type` is `"report"`. -/
def uTopReport : StreamUpdate :=
  { type := "report" }

/-! Claim theorems. -/

/-- C1 counterexample: delivering the same `"search"` finding `"A"` twice
leaves the store's findings with a duplicate content key — `updateFromStream`
performs no duplicate suppression. -/
theorem c1_search_no_dedup_counterexample :
    (updateFromStream (updateFromStream initialState uSearchA) uSearchA).findings
        = ["A", "A"] ∧
      ¬ (updateFromStream (updateFromStream initialState uSearchA) uSearchA).findings.Nodup := by
  constructor
  · rfl
  · decide

/-- C1 (amended): a `"search"` update concatenates `data.findings` onto
`state.findings` verbatim; an entry whose content key already occurs in the
state is appended again rather than left out. -/
theorem c1_search_appends_verbatim (s : ResearchState) (u : StreamUpdate)
    (d : UpdateData) (h : u.data = some d) (ht : d.type = "search") :
    (updateFromStream s u).findings = s.findings ++ jsOrList d.findings [] := by
  rw [ufsSearch s u d h ht]

/-- C1 witness: the amended statement at the concrete duplicate input. -/
theorem c1_search_appends_verbatim_witness :
    (updateFromStream (updateFromStream initialState uSearchA) uSearchA).findings
      = (updateFromStream initialState uSearchA).findings
          ++ jsOrList uSearchAData.findings [] :=
  c1_search_appends_verbatim (updateFromStream initialState uSearchA) uSearchA
    uSearchAData rfl rfl

/-- C2 counterexample: a `"report"` event with no `content` field yields a
reachable state with `status = "completed"` and an empty report, so
`report ≠ "" ⟺ status = "completed"` fails on the store. -/
theorem c2_report_empty_counterexample :
    (updateFromStream initialState uReportEmpty).status = "completed" ∧
      (updateFromStream initialState uReportEmpty).report = "" := by
  exact ⟨rfl, rfl⟩

/-- C2 (amended): a `"report"` update sets `status` to `"completed"`, and
when its `data.content` is a non-empty string the resulting report is
non-empty; a `"report"` event with empty or missing content instead leaves
`status = "completed"` with `report = ""`, so the biconditional does not hold
in general. -/
theorem c2_report_nonempty_of_content (s : ResearchState) (u : StreamUpdate)
    (d : UpdateData) (c : String) (h : u.data = some d) (ht : d.type = "report")
    (hc : d.content = some c) (hne : c ≠ "") :
    (updateFromStream s u).status = "completed" ∧ (updateFromStream s u).report ≠ "" := by
  rw [ufsReport s u d h ht]
  refine ⟨rfl, ?_⟩
  simp only [jsOrString, hc]
  simp [hne]

/-- C2 witness: the amended statement at the concrete `"done"` report. -/
theorem c2_report_nonempty_of_content_witness :
    (updateFromStream initialState uReportDone).status = "completed" ∧
      (updateFromStream initialState uReportDone).report ≠ "" :=
  c2_report_nonempty_of_content initialState uReportDone uReportDoneData "done"
    rfl rfl rfl (by decide)

/-- C3: one `updateFromStream` call only ever appends to `findings`: the old
findings sequence is a prefix of the new one, and the length never
decreases. -/
theorem c3_findings_append_only (s : ResearchState) (u : StreamUpdate) :
    (∃ t : List Finding, (updateFromStream s u).findings = s.findings ++ t) ∧
      s.findings.length ≤ (updateFromStream s u).findings.length := by
  have key : ∃ t : List Finding,
      (updateFromStream s u).findings = s.findings ++ t := by
    cases hd : u.data with
    | none =>
        exact ⟨[], by rw [ufsNone s u hd]; simp⟩
    | some d =>
        by_cases h1 : d.type = "query_generation"
        · exact ⟨[], by rw [ufsQueryGen s u d hd h1]; simp⟩
        by_cases h2 : d.type = "search"
        · exact ⟨jsOrList d.findings [], by rw [ufsSearch s u d hd h2]⟩
        by_cases h3 : d.type = "analysis"
        · exact ⟨[], by rw [ufsAnalysis s u d hd h3]; simp⟩
        by_cases h4 : d.type = "validation"
        · exact ⟨[], by rw [ufsValidation s u d hd h4]; simp⟩
        by_cases h5 : d.type = "report"
        · exact ⟨[], by rw [ufsReport s u d hd h5]; simp⟩
        exact ⟨[], by rw [ufsOther s u d hd h1 h2 h3 h4 h5]; simp⟩
  obtain ⟨t, ht⟩ := key
  refine ⟨⟨t, ht⟩, ?_⟩
  rw [ht]
  simp

/-- C4 counterexample: a second `"validation"` event overwrites an
already-set validation record, so validation is not set-once in the store. -/
theorem c4_validation_overwrite_counterexample :
    (updateFromStream initialState uVal1).validation ≠ none ∧
      (updateFromStream (updateFromStream initialState uVal1) uVal2).validation
        ≠ (updateFromStream initialState uVal1).validation := by
  constructor
  · decide
  · decide

/-- C4 (amended): every `"validation"` update rebuilds the validation record
from that update's own fields, overwriting whatever record was set before. -/
theorem c4_validation_update_overwrites (s : ResearchState) (u : StreamUpdate)
    (d : UpdateData) (h : u.data = some d) (ht : d.type = "validation") :
    (updateFromStream s u).validation
      = some ⟨d.is_valid, d.confidence, jsOrList d.concerns []⟩ := by
  rw [ufsValidation s u d h ht]

/-- C4 witness: the amended statement at the first concrete validation
event. -/
theorem c4_validation_update_overwrites_witness :
    (updateFromStream initialState uVal1).validation
      = some ⟨true, 1, jsOrList (none : Option (List String)) []⟩ :=
  c4_validation_update_overwrites initialState uVal1
    { type := "validation", is_valid := true, confidence := 1 } rfl rfl

/-- Every branch of `updateFromStream` sets
`iteration := jsOrInt update.iteration s.iteration`. -/
theorem ufs_iteration (s : ResearchState) (u : StreamUpdate) :
    (updateFromStream s u).iteration = jsOrInt u.iteration s.iteration := by
  cases hd : u.data with
  | none => rw [ufsNone s u hd]
  | some d =>
      by_cases h1 : d.type = "query_generation"
      · rw [ufsQueryGen s u d hd h1]
      by_cases h2 : d.type = "search"
      · rw [ufsSearch s u d hd h2]
      by_cases h3 : d.type = "analysis"
      · rw [ufsAnalysis s u d hd h3]
      by_cases h4 : d.type = "validation"
      · rw [ufsValidation s u d hd h4]
      by_cases h5 : d.type = "report"
      · rw [ufsReport s u d hd h5]
      rw [ufsOther s u d hd h1 h2 h3 h4 h5]

/-- No branch of `updateFromStream` touches `maxIterations`. -/
theorem ufs_maxIterations (s : ResearchState) (u : StreamUpdate) :
    (updateFromStream s u).maxIterations = s.maxIterations := by
  cases hd : u.data with
  | none => rw [ufsNone s u hd]
  | some d =>
      by_cases h1 : d.type = "query_generation"
      · rw [ufsQueryGen s u d hd h1]
      by_cases h2 : d.type = "search"
      · rw [ufsSearch s u d hd h2]
      by_cases h3 : d.type = "analysis"
      · rw [ufsAnalysis s u d hd h3]
      by_cases h4 : d.type = "validation"
      · rw [ufsValidation s u d hd h4]
      by_cases h5 : d.type = "report"
      · rw [ufsReport s u d hd h5]
      rw [ufsOther s u d hd h1 h2 h3 h4 h5]

/-- Invariant carried through a fold of stream updates whose `iteration`
fields all lie in `[0, 5]`. -/
theorem iter_invariant (us : List StreamUpdate) :
    ∀ s : ResearchState,
      (∀ u ∈ us, ∀ n : Int, u.iteration = some n → 0 ≤ n ∧ n ≤ 5) →
      0 ≤ s.iteration → s.iteration ≤ 5 → s.maxIterations = 5 →
      0 ≤ (us.foldl updateFromStream s).iteration ∧
        (us.foldl updateFromStream s).iteration ≤ 5 ∧
        (us.foldl updateFromStream s).maxIterations = 5 := by
  induction us with
  | nil => intro s _ h0 h5 hm; exact ⟨h0, h5, hm⟩
  | cons u us ih =>
      intro s hb h0 h5 hm
      simp only [List.foldl_cons]
      apply ih
      · intro v hv n hn
        exact hb v (List.mem_cons_of_mem u hv) n hn
      · rw [ufs_iteration]
        cases hiu : u.iteration with
        | none => exact h0
        | some n =>
            simp only [jsOrInt]
            split_ifs with hn
            · exact h0
            · exact (hb u (List.mem_cons_self u us) n hiu).1
      · rw [ufs_iteration]
        cases hiu : u.iteration with
        | none => exact h5
        | some n =>
            simp only [jsOrInt]
            split_ifs with hn
            · exact h5
            · exact (hb u (List.mem_cons_self u us) n hiu).2
      · rw [ufs_maxIterations]
        exact hm

/-- C5 counterexample: a stream update carrying `iteration = 6` is copied
into the store unbounded, exceeding `maxIterations = 5`. -/
theorem c5_iteration_bound_counterexample :
    (updateFromStream initialState uIter6).iteration = 6 ∧
      (updateFromStream initialState uIter6).maxIterations = 5 ∧
      ¬ (updateFromStream initialState uIter6).iteration
          ≤ (updateFromStream initialState uIter6).maxIterations := by
  refine ⟨rfl, rfl, ?_⟩
  decide

/-- C5 (amended): starting from the initial state,
`0 ≤ iteration ≤ maxIterations` holds after any sequence of
`updateFromStream` calls provided every update's `iteration` field (when
present) lies in `[0, maxIterations]`; `updateFromStream` itself copies the
update's value without bounding it, so an out-of-range update violates the
invariant. -/
theorem c5_iteration_bounded_of_bounded_updates (us : List StreamUpdate)
    (h : ∀ u ∈ us, ∀ n : Int, u.iteration = some n → 0 ≤ n ∧ n ≤ 5) :
    0 ≤ (us.foldl updateFromStream initialState).iteration ∧
      (us.foldl updateFromStream initialState).iteration
        ≤ (us.foldl updateFromStream initialState).maxIterations := by
  obtain ⟨h0, h5, hm⟩ :=
    iter_invariant us initialState h (by decide) (by decide) rfl
  rw [hm]
  exact ⟨h0, h5⟩

/-- C5 witness: the amended statement on a single in-range update. -/
theorem c5_iteration_bounded_witness :
    0 ≤ (([uIter2] : List StreamUpdate).foldl updateFromStream initialState).iteration ∧
      (([uIter2] : List StreamUpdate).foldl updateFromStream initialState).iteration
        ≤ (([uIter2] : List StreamUpdate).foldl updateFromStream initialState).maxIterations :=
  c5_iteration_bounded_of_bounded_updates [uIter2] (by
    intro u hu n hn
    have hu2 : u = uIter2 := by simpa using hu
    subst hu2
    have h2 : (some 2 : Option Int) = some n := hn
    injection h2 with h2
    subst h2
    exact ⟨by decide, by decide⟩)

/-- C6: the `ws.onmessage` handler of `streamResearch` invokes the completion
callback for a parsed update exactly when the update's `type` is `"report"`
or its `status` is `"completed"`. -/
theorem c6_complete_callback_iff (u : StreamUpdate) :
    CallbackEvent.cbComplete ∈ handleMessage (some u) ↔
      (u.type = "report" ∨ u.status = some "completed") := by
  unfold handleMessage
  dsimp only
  split_ifs with hc
  · simp [hc]
  · simp [hc]

/-- C6 witness: a message whose top-level `type` is `"report"` triggers the
completion callback. -/
theorem c6_complete_callback_iff_witness :
    CallbackEvent.cbComplete ∈ handleMessage (some uTopReport) :=
  (c6_complete_callback_iff uTopReport).mpr (Or.inl rfl)

/-! Frame predicates for C7: which store fields a stream event may touch. -/

/-- Fields `updateFromStream` never writes, whatever the event. -/
def unchangedCore (s t : ResearchState) : Prop :=
  t.researchId = s.researchId ∧ t.topic = s.topic ∧
    t.clarifications = s.clarifications ∧ t.maxIterations = s.maxIterations ∧
    t.analytics = s.analytics ∧ t.error = s.error

/-- Everything except `status` and `iteration` is unchanged. -/
def unchangedExceptProgress (s t : ResearchState) : Prop :=
  unchangedCore s t ∧ t.queryReasoning = s.queryReasoning ∧
    t.analysisReasoning = s.analysisReasoning ∧
    t.currentQueries = s.currentQueries ∧ t.gaps = s.gaps ∧
    t.coverage = s.coverage ∧ t.validation = s.validation ∧
    t.findings = s.findings ∧ t.report = s.report ∧
    t.isStreaming = s.isStreaming

/-- Frame of a `"query_generation"` event: besides `status`/`iteration`, only
`currentQueries` and `queryReasoning` may change. -/
def queryGenFrame (s t : ResearchState) : Prop :=
  unchangedCore s t ∧ t.analysisReasoning = s.analysisReasoning ∧
    t.gaps = s.gaps ∧ t.coverage = s.coverage ∧ t.validation = s.validation ∧
    t.findings = s.findings ∧ t.report = s.report ∧
    t.isStreaming = s.isStreaming

/-- Frame of a `"search"` event: besides `status`/`iteration`, only
`findings` may change. -/
def searchFrame (s t : ResearchState) : Prop :=
  unchangedCore s t ∧ t.queryReasoning = s.queryReasoning ∧
    t.analysisReasoning = s.analysisReasoning ∧
    t.currentQueries = s.currentQueries ∧ t.gaps = s.gaps ∧
    t.coverage = s.coverage ∧ t.validation = s.validation ∧
    t.report = s.report ∧ t.isStreaming = s.isStreaming

/-- Frame of an `"analysis"` event: besides `status`/`iteration`, only
`coverage`, `gaps` and `analysisReasoning` may change. -/
def analysisFrame (s t : ResearchState) : Prop :=
  unchangedCore s t ∧ t.queryReasoning = s.queryReasoning ∧
    t.currentQueries = s.currentQueries ∧ t.validation = s.validation ∧
    t.findings = s.findings ∧ t.report = s.report ∧
    t.isStreaming = s.isStreaming

/-- Frame of a `"validation"` event: besides `status`/`iteration`, only the
`validation` record may change. -/
def validationFrame (s t : ResearchState) : Prop :=
  unchangedCore s t ∧ t.queryReasoning = s.queryReasoning ∧
    t.analysisReasoning = s.analysisReasoning ∧
    t.currentQueries = s.currentQueries ∧ t.gaps = s.gaps ∧
    t.coverage = s.coverage ∧ t.findings = s.findings ∧
    t.report = s.report ∧ t.isStreaming = s.isStreaming

/-- Frame of a `"report"` event: besides `status` (forced to `"completed"`)
and `iteration`, only `report` changes — and, beyond what the event schema
lists, `isStreaming` is forced to `false`. -/
def reportFrame (s t : ResearchState) : Prop :=
  unchangedCore s t ∧ t.queryReasoning = s.queryReasoning ∧
    t.analysisReasoning = s.analysisReasoning ∧
    t.currentQueries = s.currentQueries ∧ t.gaps = s.gaps ∧
    t.coverage = s.coverage ∧ t.validation = s.validation ∧
    t.findings = s.findings ∧ t.status = "completed" ∧
    t.isStreaming = false

/-- C7 counterexample: a `"report"` event flips `isStreaming` from `true` to
`false`, so it does not update only the report text besides `status` and
`iteration`. -/
theorem c7_event_frame_counterexample :
    (setStatus initialState "running").isStreaming = true ∧
      (updateFromStream (setStatus initialState "running") uReportDone).isStreaming
        = false := by
  exact ⟨rfl, rfl⟩

/-- C7 (amended): an update whose `data` is missing, or whose `data.type` is
none of the five schema types, changes nothing besides `status` and
`iteration`; each of the five types touches only its own data fields besides
`status` and `iteration` — except that a `"report"` event additionally forces
`isStreaming` to `false` (and `status` to `"completed"`). -/
theorem c7_event_frame (s : ResearchState) (u : StreamUpdate) :
    unchangedCore s (updateFromStream s u) ∧
      (u.data = none → unchangedExceptProgress s (updateFromStream s u)) ∧
      (∀ d, u.data = some d →
        d.type ∉ (["query_generation", "search", "analysis", "validation",
          "report"] : List String) →
        unchangedExceptProgress s (updateFromStream s u)) ∧
      (∀ d, u.data = some d → d.type = "query_generation" →
        queryGenFrame s (updateFromStream s u)) ∧
      (∀ d, u.data = some d → d.type = "search" →
        searchFrame s (updateFromStream s u)) ∧
      (∀ d, u.data = some d → d.type = "analysis" →
        analysisFrame s (updateFromStream s u)) ∧
      (∀ d, u.data = some d → d.type = "validation" →
        validationFrame s (updateFromStream s u)) ∧
      (∀ d, u.data = some d → d.type = "report" →
        reportFrame s (updateFromStream s u)) := by
  refine ⟨?_, ?_, ?_, ?_, ?_, ?_, ?_, ?_⟩
  · cases hd : u.data with
    | none =>
        rw [ufsNone s u hd]
        exact ⟨rfl, rfl, rfl, rfl, rfl, rfl⟩
    | some d =>
        by_cases h1 : d.type = "query_generation"
        · rw [ufsQueryGen s u d hd h1]; exact ⟨rfl, rfl, rfl, rfl, rfl, rfl⟩
        by_cases h2 : d.type = "search"
        · rw [ufsSearch s u d hd h2]; exact ⟨rfl, rfl, rfl, rfl, rfl, rfl⟩
        by_cases h3 : d.type = "analysis"
        · rw [ufsAnalysis s u d hd h3]; exact ⟨rfl, rfl, rfl, rfl, rfl, rfl⟩
        by_cases h4 : d.type = "validation"
        · rw [ufsValidation s u d hd h4]; exact ⟨rfl, rfl, rfl, rfl, rfl, rfl⟩
        by_cases h5 : d.type = "report"
        · rw [ufsReport s u d hd h5]; exact ⟨rfl, rfl, rfl, rfl, rfl, rfl⟩
        rw [ufsOther s u d hd h1 h2 h3 h4 h5]
        exact ⟨rfl, rfl, rfl, rfl, rfl, rfl⟩
  · intro hd
    rw [ufsNone s u hd]
    exact ⟨⟨rfl, rfl, rfl, rfl, rfl, rfl⟩, rfl, rfl, rfl, rfl, rfl, rfl, rfl, rfl, rfl⟩
  · intro d hd hnot
    simp only [List.mem_cons, List.not_mem_nil, or_false, not_or] at hnot
    obtain ⟨h1, h2, h3, h4, h5⟩ := hnot
    rw [ufsOther s u d hd h1 h2 h3 h4 h5]
    exact ⟨⟨rfl, rfl, rfl, rfl, rfl, rfl⟩, rfl, rfl, rfl, rfl, rfl, rfl, rfl, rfl, rfl⟩
  · intro d hd ht
    rw [ufsQueryGen s u d hd ht]
    exact ⟨⟨rfl, rfl, rfl, rfl, rfl, rfl⟩, rfl, rfl, rfl, rfl, rfl, rfl, rfl⟩
  · intro d hd ht
    rw [ufsSearch s u d hd ht]
    exact ⟨⟨rfl, rfl, rfl, rfl, rfl, rfl⟩, rfl, rfl, rfl, rfl, rfl, rfl, rfl, rfl⟩
  · intro d hd ht
    rw [ufsAnalysis s u d hd ht]
    exact ⟨⟨rfl, rfl, rfl, rfl, rfl, rfl⟩, rfl, rfl, rfl, rfl, rfl, rfl⟩
  · intro d hd ht
    rw [ufsValidation s u d hd ht]
    exact ⟨⟨rfl, rfl, rfl, rfl, rfl, rfl⟩, rfl, rfl, rfl, rfl, rfl, rfl, rfl, rfl⟩
  · intro d hd ht
    rw [ufsReport s u d hd ht]
    exact ⟨⟨rfl, rfl, rfl, rfl, rfl, rfl⟩, rfl, rfl, rfl, rfl, rfl, rfl, rfl, rfl, rfl⟩

/-- C7 witness: the query-generation and report frames at concrete events. -/
theorem c7_event_frame_witness :
    queryGenFrame initialState (updateFromStream initialState uQueryGen) ∧
      reportFrame initialState (updateFromStream initialState uReportDone) :=
  ⟨(c7_event_frame initialState uQueryGen).2.2.2.1 uQueryGenData rfl rfl,
   (c7_event_frame initialState uReportDone).2.2.2.2.2.2.2 uReportDoneData rfl rfl⟩

/-- The wrapper never makes more attempts than the fuel allows. -/
theorem callWithRetryAux_attempts_le (f : Nat → Outcome) :
    ∀ fuel i e : Nat, (callWithRetryAux f fuel i e).attempts ≤ i - 1 + fuel := by
  intro fuel
  induction fuel with
  | zero =>
      intro i e
      simp [callWithRetryAux]
  | succ fuel ih =>
      intro i e
      cases hf : f i with
      | success v =>
          simp only [callWithRetryAux, hf]
          omega
      | permanent =>
          simp only [callWithRetryAux, hf]
          omega
      | transient =>
          simp only [callWithRetryAux, hf]
          split_ifs with h0
          · simp
            omega
          · exact le_trans (ih (i + 1) (e + RETRY_DELAY_MS * 2 ^ (i - 1))) (by omega)

/-- C8: the wrapper makes at most `MAX_RETRY_ATTEMPTS` attempts; a call that
fails transiently on every attempt surfaces `retriesExhausted` after exactly
`MAX_RETRY_ATTEMPTS` tries, having waited exactly — hence at least — the sum
of the configured backoff delays `RETRY_DELAY_MS * 2 ^ (i - 1)`. -/
theorem c8_retries_exhausted (f : Nat → Outcome)
    (h : ∀ i, 1 ≤ i → i ≤ MAX_RETRY_ATTEMPTS → f i = Outcome.transient) :
    (∀ g : Nat → Outcome, (callWithRetry g).attempts ≤ MAX_RETRY_ATTEMPTS) ∧
      (callWithRetry f).result = CallResult.retriesExhausted ∧
      (callWithRetry f).attempts = MAX_RETRY_ATTEMPTS ∧
      (callWithRetry f).elapsed = RETRY_DELAY_MS * 2 ^ 0 + RETRY_DELAY_MS * 2 ^ 1 ∧
      RETRY_DELAY_MS * 2 ^ 0 + RETRY_DELAY_MS * 2 ^ 1 ≤ (callWithRetry f).elapsed := by
  have h1 := h 1 (by decide) (by decide)
  have h2 := h 2 (by decide) (by decide)
  have h3 := h 3 (by decide) (by decide)
  have hrun : callWithRetry f = ⟨CallResult.retriesExhausted, 3, 3000⟩ := by
    simp [callWithRetry, callWithRetryAux, h1, h2, h3, MAX_RETRY_ATTEMPTS,
      RETRY_DELAY_MS]
  refine ⟨?_, ?_, ?_, ?_, ?_⟩
  · intro g
    have := callWithRetryAux_attempts_le g MAX_RETRY_ATTEMPTS 1 0
    simpa [callWithRetry] using this
  · rw [hrun]
  · rw [hrun, MAX_RETRY_ATTEMPTS]
  · rw [hrun, RETRY_DELAY_MS]
    norm_num
  · rw [hrun, RETRY_DELAY_MS]
    norm_num

/-- C8 witness: the always-transient call. -/
theorem c8_retries_exhausted_witness :
    (callWithRetry fun _ => Outcome.transient).result = CallResult.retriesExhausted ∧
      (callWithRetry fun _ => Outcome.transient).attempts = MAX_RETRY_ATTEMPTS ∧
      RETRY_DELAY_MS * 2 ^ 0 + RETRY_DELAY_MS * 2 ^ 1
        ≤ (callWithRetry fun _ => Outcome.transient).elapsed :=
  have hc := c8_retries_exhausted (fun _ => Outcome.transient) (fun _ _ _ => rfl)
  ⟨hc.2.1, hc.2.2.1, hc.2.2.2.2⟩

/-- C9: after any sequence of store actions, `reset` restores exactly the
initial state — whose fields are the documented initial values — and `reset`
is idempotent. -/
theorem c9_reset_restores_initial (acts : List Action) :
    reset (run initialState acts) = initialState ∧
      reset (reset (run initialState acts)) = reset (run initialState acts) ∧
      initialState.researchId = none ∧ initialState.topic = "" ∧
      initialState.status = "idle" ∧ initialState.iteration = 0 ∧
      initialState.maxIterations = 5 ∧ initialState.currentQueries = [] ∧
      initialState.gaps = [] ∧ initialState.findings = [] ∧
      initialState.coverage = 0 ∧ initialState.validation = none ∧
      initialState.analytics = none ∧ initialState.report = "" ∧
      initialState.isStreaming = false ∧ initialState.error = none :=
  ⟨rfl, rfl, rfl, rfl, rfl, rfl, rfl, rfl, rfl, rfl, rfl, rfl, rfl, rfl, rfl, rfl⟩

/-- C10: `setStatus s st` sets `status` to `st`, sets `isStreaming` exactly
when `st` is neither `"completed"` nor `"failed"`, and leaves every other
store field unchanged. -/
theorem c10_setStatus_spec (s : ResearchState) (st : String) :
    (setStatus s st).status = st ∧
      ((setStatus s st).isStreaming = true ↔ st ≠ "completed" ∧ st ≠ "failed") ∧
      (setStatus s st).researchId = s.researchId ∧
      (setStatus s st).topic = s.topic ∧
      (setStatus s st).clarifications = s.clarifications ∧
      (setStatus s st).iteration = s.iteration ∧
      (setStatus s st).maxIterations = s.maxIterations ∧
      (setStatus s st).queryReasoning = s.queryReasoning ∧
      (setStatus s st).analysisReasoning = s.analysisReasoning ∧
      (setStatus s st).currentQueries = s.currentQueries ∧
      (setStatus s st).gaps = s.gaps ∧
      (setStatus s st).coverage = s.coverage ∧
      (setStatus s st).validation = s.validation ∧
      (setStatus s st).analytics = s.analytics ∧
      (setStatus s st).findings = s.findings ∧
      (setStatus s st).report = s.report ∧
      (setStatus s st).error = s.error := by
  refine ⟨rfl, ?_, rfl, rfl, rfl, rfl, rfl, rfl, rfl, rfl, rfl, rfl, rfl, rfl,
    rfl, rfl, rfl⟩
  simp [setStatus, Bool.and_eq_true, bne_iff_ne, ne_eq]

/-- C10 witness: `setStatus` with a non-terminal status turns streaming on. -/
theorem c10_setStatus_spec_witness :
    (setStatus initialState "running").isStreaming = true :=
  ((c10_setStatus_spec initialState "running").2.1).mpr (by decide)

end Noesis
